import Mathlib

/-!
Formal model of the `check_service` Django management command
(`service_checker/management/commands/check_service.py`).

The command parses a positional `url` argument and an optional `--timeout`
integer flag (default 10), issues one HTTP GET, measures wall-clock elapsed
time, classifies the result (status 200 / other status / request exception)
and writes one line to standard output.

The embedding represents one invocation as a pure function of:
  - the parsed options (or the raw argv list, run through a model of the
    argparse configuration installed by `Command.add_arguments`),
  - the behaviour of `requests.get` (a received status code, or a raised
    exception), and
  - the two wall-clock readings (`time.time()` is called at most twice).
The observable behaviour is a list of events: clock reads, log records,
the GET call, and stdout writes.

Python unbounded integers are `Int`; wall-clock timestamps are idealized as
exact rationals `ℚ` (the source manipulates floats; every claim checked here
uses exact values, e.g. elapsed 0.5 s).
-/

namespace ServiceChecker

/-- Outcome classification of one check, as in the data model of the spec:
status code exactly 200, any other received status, or a raised request
exception. -/
inductive Outcome where
  | available
  | unavailableStatus
  | failed
deriving DecidableEq

/-- A Python exception raised by `requests.get`: its message (what `str(e)`
yields) and whether it is an instance of `requests.RequestException` (the
class caught by the `except` clause in `Command.handle`; every
transport-level error raised by requests is an instance of it). -/
structure PyExc where
  isReqExc : Bool
  msg : String
deriving DecidableEq

/-- Behaviour of the single `requests.get(url, timeout=timeout)` call:
either a response object carrying a status code, or a raised exception. -/
inductive GetBehavior where
  | response (statusCode : Int)
  | raises (exc : PyExc)
deriving DecidableEq

/-- Observable events of one invocation: a `time.time()` call and its value,
a `logger.debug` record, a `logger.error` record, the `requests.get` call
with its arguments, and a write to standard output. -/
inductive Event where
  | clockRead (t : ℚ)
  | logDebug (msg : String)
  | logError (msg : String)
  | httpGet (url : String) (timeout : Int)
  | stdoutWrite (s : String)
deriving DecidableEq

/-! Formatting of the response time: the source renders it with the Python
format specifier `:.2f`, i.e. rounded to two decimal digits (ties to even)
and always printed with exactly two digits after the point. -/

/-- Round the fraction `n / d` (with `d` positive) to the nearest integer,
ties to even: the rounding used by Python float formatting. With floor `f`
and remainder `r = n - f * d` (so `0 ≤ r < d`), the fractional part
`r / d` is compared with one half by comparing `2 * r` with `d`. -/
def divRoundHalfEven (n d : ℤ) : ℤ :=
  let f := Int.fdiv n d
  let r := n - f * d
  if 2 * r < d then f
  else if d < 2 * r then f + 1
  else if f % 2 = 0 then f else f + 1

/-- Decimal digit character for a value below ten. -/
def digitChar (n : ℕ) : Char :=
  Char.ofNat (48 + n)

/-- Two decimal digits, zero padded, of a value below one hundred. -/
def pad2 (k : ℕ) : String :=
  String.mk [digitChar (k / 10 % 10), digitChar (k % 10)]

/-- Model of the Python format `:.2f` on an exact rational: round the
value times one hundred half-to-even (computed as the rounded quotient of
`num * 100` by `den`), then print integer part, a point, and exactly two
fractional digits (a sign when the rounded value is negative, or rounds
to zero from a negative value, as Python prints). -/
def formatFixed2 (q : ℚ) : String :=
  let n := divRoundHalfEven (q.num * 100) (q.den : ℤ)
  let m := n.natAbs
  let sign := if n < 0 ∨ (n = 0 ∧ q.num < 0) then "-" else ""
  (sign ++ toString (m / 100)) ++ "." ++ pad2 (m % 100)

/-! The exact strings produced by `Command.handle`. Styling wrappers
(`self.style.SUCCESS` and friends) are the identity here: Django disables
colorization when the output is not a terminal, and the tests of the
repository assert the unstyled strings. `OutputWrapper.write` appends a
newline to a message not already ending in one. -/

/-- Debug record logged before the request is sent. -/
def preRequestLog (url : String) : String :=
  "start to send a get request to the url=[" ++ url ++ "]"

/-- Debug record logged on the status-200 branch. -/
def availableLog (url : String) : String :=
  "Service at " ++ url ++ " is available"

/-- Stdout message of the status-200 branch. -/
def availableMsg (url : String) (rt : ℚ) : String :=
  "Service at " ++ url ++ " is available! Response time: " ++
    formatFixed2 rt ++ " ms"

/-- Stdout message of the non-200 branch. -/
def unavailableMsg (url : String) (code : Int) (rt : ℚ) : String :=
  "Service at " ++ url ++ " responded with status: " ++ toString code ++
    ". Response time: " ++ formatFixed2 rt ++ " ms"

/-- Message used both for the error log record and for stdout on the
exception branch. -/
def failedMsg (url : String) (err : String) : String :=
  "Failed to check service at " ++ url ++ ": " ++ err

/-- Model of `Command.handle` given parsed options. Returns the list of
observable events and, when the raised exception is not a
`requests.RequestException` (so the `except` clause does not match),
the exception that propagates out of `handle`.

The source, step by step: read the clock (`start_time`), log the debug
record, call `requests.get`; on a response, read the clock again, compute
`response_time = (end - start) * 1000`, and branch on `status_code == 200`
(debug record plus success message, or warning message); on a raised
`RequestException`, log the error record and write the failure message.
No second clock read happens on the exception path. -/
def handle (url : String) (timeout : Int) (get : GetBehavior)
    (startT endT : ℚ) : List Event × Option PyExc :=
  let pre := [Event.clockRead startT,
              Event.logDebug (preRequestLog url),
              Event.httpGet url timeout]
  match get with
  | .response code =>
      let rt := (endT - startT) * 1000
      if code = 200 then
        (pre ++ [Event.clockRead endT,
                 Event.logDebug (availableLog url),
                 Event.stdoutWrite (availableMsg url rt ++ "\n")], none)
      else
        (pre ++ [Event.clockRead endT,
                 Event.stdoutWrite (unavailableMsg url code rt ++ "\n")], none)
  | .raises exc =>
      if exc.isReqExc then
        (pre ++ [Event.logError (failedMsg url exc.msg),
                 Event.stdoutWrite (failedMsg url exc.msg ++ "\n")], none)
      else
        (pre, some exc)

/-- True when the behaviour of the GET call is handled by `Command.handle`
(a response, or an exception matched by the `except` clause). -/
def handledGet : GetBehavior → Bool
  | .response _ => true
  | .raises exc => exc.isReqExc

/-- The transient check-result value of the data model of the spec,
abstracted from the branch taken by `Command.handle`. `responseTimeMs` is
optional because the source computes the response time only on the
response branches. -/
structure CheckResult where
  url : String
  outcome : Outcome
  statusCode : Option Int
  responseTimeMs : Option ℚ
  errorMessage : Option String
deriving DecidableEq

/-- The check result produced by one invocation of `Command.handle`:
`none` exactly when the exception is unhandled and no outcome is
determined. -/
def check (url : String) (get : GetBehavior) (startT endT : ℚ) :
    Option CheckResult :=
  match get with
  | .response code =>
      some { url := url,
             outcome := if code = 200 then .available else .unavailableStatus,
             statusCode := some code,
             responseTimeMs := some ((endT - startT) * 1000),
             errorMessage := none }
  | .raises exc =>
      if exc.isReqExc then
        some { url := url, outcome := .failed, statusCode := none,
               responseTimeMs := none, errorMessage := some exc.msg }
      else none

/-- Modelled from the spec: the output-formatting table of section 4.1,
a pure function of the check result, used to compare the stdout line the
code produces against the templates the spec mandates. -/
def specMessage (r : CheckResult) : String :=
  match r.outcome with
  | .available =>
      "Service at " ++ r.url ++ " is available! Response time: " ++
        formatFixed2 (r.responseTimeMs.getD 0) ++ " ms"
  | .unavailableStatus =>
      "Service at " ++ r.url ++ " responded with status: " ++
        toString (r.statusCode.getD 0) ++ ". Response time: " ++
        formatFixed2 (r.responseTimeMs.getD 0) ++ " ms"
  | .failed =>
      "Failed to check service at " ++ r.url ++ ": " ++
        r.errorMessage.getD ""

/-- Payloads of the stdout writes of an event list, in order. -/
def stdoutOf (es : List Event) : List String :=
  es.filterMap fun e =>
    match e with
    | .stdoutWrite s => some s
    | _ => none

/-- Messages of the debug log records of an event list, in order. -/
def debugLogsOf (es : List Event) : List String :=
  es.filterMap fun e =>
    match e with
    | .logDebug m => some m
    | _ => none

/-- Messages of the error log records of an event list, in order. -/
def errorLogsOf (es : List Event) : List String :=
  es.filterMap fun e =>
    match e with
    | .logError m => some m
    | _ => none

/-- Values of the clock reads of an event list, in order. -/
def clockReadsOf (es : List Event) : List ℚ :=
  es.filterMap fun e =>
    match e with
    | .clockRead t => some t
    | _ => none

/-- Arguments of the GET calls of an event list, in order. -/
def httpGetsOf (es : List Event) : List (String × Int) :=
  es.filterMap fun e =>
    match e with
    | .httpGet u t => some (u, t)
    | _ => none

/-! Model of the command-line interface: the parser configured by
`Command.add_arguments` (positional `url` of type str; optional flag
`--timeout` of type int with default 10), with the argument-consumption
rules of Python argparse restricted to this configuration. Django default
options (`--verbosity`, `--settings`, ...) and prefix abbreviation of
`--timeout` are not modelled; no claim involves them. On a parse error,
CommandParser raises CommandError whose message is the argparse message
prefixed with the word Error; Django then exits with a nonzero status. -/

/-- Parsed options of the command. -/
structure Options where
  url : String
  timeout : Int
deriving DecidableEq

/-- True when the character list is one or more decimal digits. -/
def digitsOnly (l : List Char) : Bool :=
  !l.isEmpty && l.all Char.isDigit

/-- Model of the argparse negative-number matcher: a dash followed by
digits, or by digits, a point and more digits. -/
def isNegativeNumberArg (s : String) : Bool :=
  match s.data with
  | '-' :: rest =>
      digitsOnly rest ||
        (match rest.span Char.isDigit with
         | (_, '.' :: frac) => digitsOnly frac
         | _ => false)
  | _ => false

/-- True when argparse takes the token for an option string rather than a
positional value: it starts with a dash, is longer than a bare dash, does
not look like a negative number (this parser has no options that look like
negative numbers, so negative numbers stay positional), and holds no
space. -/
def looksLikeOption (s : String) : Bool :=
  match s.data with
  | '-' :: rest =>
      !rest.isEmpty && !(isNegativeNumberArg s) && !(s.data.contains ' ')
  | _ => false

/-- Character list with surrounding whitespace removed. -/
def trimChars (l : List Char) : List Char :=
  ((l.dropWhile Char.isWhitespace).reverse.dropWhile Char.isWhitespace).reverse

/-- Numeric value of a list of decimal digit characters. -/
def digitsVal (l : List Char) : ℕ :=
  l.foldl (fun acc c => 10 * acc + (c.toNat - 48)) 0

/-- Model of the Python `int` conversion applied by `type=int`: optional
surrounding whitespace, optional sign, decimal digits. (Python also
accepts underscore digit separators; not modelled, no claim uses them.) -/
def pyInt (s : String) : Option Int :=
  match trimChars s.data with
  | '-' :: rest =>
      if digitsOnly rest then some (-(digitsVal rest : ℤ)) else none
  | '+' :: rest =>
      if digitsOnly rest then some ((digitsVal rest : ℤ)) else none
  | l =>
      if digitsOnly l then some ((digitsVal l : ℤ)) else none

/-- A token the parser consumes as a plain positional value: not the
double-dash separator, not the `--timeout` option string (bare or with an
attached value), and not option-like. -/
def plainArg (a : String) : Bool :=
  !(a = "--") && !(a = "--timeout") &&
    !(List.isPrefixOf "--timeout=".data a.data) && !(looksLikeOption a)

/-- One pass over the argv tokens, carrying the positional seen so far,
the current timeout value (initially the default 10), the unrecognized
leftovers, and whether the double-dash separator was crossed. As in
argparse: a missing required positional is reported first, then
unrecognized leftovers; an option with a missing or invalid value is
reported immediately. -/
def parseArgsAux : List String → Option String → Int → List String → Bool →
    Except String Options
  | [], url?, t, extras, _ =>
      match url? with
      | none => .error "Error: the following arguments are required: url"
      | some u =>
          if extras.isEmpty then .ok ⟨u, t⟩
          else .error ("Error: unrecognized arguments: " ++
                        String.intercalate " " extras)
  | a :: rest, url?, t, extras, afterSep =>
      if afterSep then
        match url? with
        | none => parseArgsAux rest (some a) t extras true
        | some _ => parseArgsAux rest url? t (extras ++ [a]) true
      else if a = "--" then
        parseArgsAux rest url? t extras true
      else if a = "--timeout" then
        match rest with
        | [] => .error "Error: argument --timeout: expected one argument"
        | v :: rest2 =>
            if looksLikeOption v then
              .error "Error: argument --timeout: expected one argument"
            else
              match pyInt v with
              | none => .error "Error: argument --timeout: invalid int value"
              | some n => parseArgsAux rest2 url? n extras false
      else if List.isPrefixOf "--timeout=".data a.data then
        match pyInt (String.mk (a.data.drop 10)) with
        | none => .error "Error: argument --timeout: invalid int value"
        | some n => parseArgsAux rest url? n extras false
      else if looksLikeOption a then
        parseArgsAux rest url? t (extras ++ [a]) false
      else
        match url? with
        | none => parseArgsAux rest (some a) t extras false
        | some _ => parseArgsAux rest url? t (extras ++ [a]) false

/-- Parse an argv token list with the parser configured by
`Command.add_arguments`. -/
def parseArgs (argv : List String) : Except String Options :=
  parseArgsAux argv none 10 [] false

/-- Decidable equality of parse results, for evaluating the parser on
concrete argv lists inside proofs. -/
instance : DecidableEq (Except String Options) := fun a b =>
  match a, b with
  | .error x, .error y =>
      if h : x = y then .isTrue (by rw [h]) else .isFalse (by simp [h])
  | .ok x, .ok y =>
      if h : x = y then .isTrue (by rw [h]) else .isFalse (by simp [h])
  | .error _, .ok _ => .isFalse (by simp)
  | .ok _, .error _ => .isFalse (by simp)

/-- Result of one full invocation of the command: a usage error raised by
the parser (Django prints the message and exits nonzero, before any
network activity), a completed run (exit status 0), or a run ended by an
exception the `except` clause did not match (propagates, nonzero exit). -/
inductive RunResult where
  | usageError (msg : String)
  | completed (events : List Event)
  | crashed (exc : PyExc) (events : List Event)
deriving DecidableEq

/-- One full invocation: parse argv, then run `Command.handle` on the
parsed options. -/
def runCommand (argv : List String) (get : GetBehavior) (startT endT : ℚ) :
    RunResult :=
  match parseArgs argv with
  | .error m => .usageError m
  | .ok opts =>
      match handle opts.url opts.timeout get startT endT with
      | (es, none) => .completed es
      | (es, some exc) => .crashed exc es

/-- Process exit status of an invocation: 0 for every completed run, 1
when a CommandError (usage error) or an uncaught exception ends the
process. -/
def exitCode : RunResult → Nat
  | .usageError _ => 1
  | .completed _ => 0
  | .crashed _ _ => 1

/-- Observable events of an invocation; a usage error occurs before any
event. -/
def eventsOf : RunResult → List Event
  | .usageError _ => []
  | .completed es => es
  | .crashed _ es => es

/-! Helper lemmas shared by the claim theorems. -/

/-- A behaviour handled by the `except` clause never propagates an
exception out of `Command.handle`. -/
theorem handle_snd_eq_none (url : String) (timeout : Int) (get : GetBehavior)
    (s e : ℚ) (h : handledGet get = true) :
    (handle url timeout get s e).2 = none := by
  cases get with
  | response code => by_cases h200 : code = 200 <;> simp [handle, h200]
  | raises exc => simp only [handledGet] at h; simp [handle, h]

/-- The trace of `Command.handle` holds exactly one GET call, with the
url and timeout it was given, on every branch. -/
theorem httpGetsOf_handle (url : String) (timeout : Int) (get : GetBehavior)
    (s e : ℚ) : httpGetsOf (handle url timeout get s e).1 = [(url, timeout)] := by
  cases get with
  | response code => by_cases h200 : code = 200 <;> simp [handle, h200, httpGetsOf]
  | raises exc => by_cases hexc : exc.isReqExc <;> simp [handle, hexc, httpGetsOf]

/-- Unpack the conditions bundled in `plainArg`. -/
theorem plainArg_parts (a : String) (h : plainArg a = true) :
    a ≠ "--" ∧ a ≠ "--timeout" ∧
      List.isPrefixOf "--timeout=".data a.data = false ∧
      looksLikeOption a = false := by
  simp only [plainArg, Bool.and_eq_true, Bool.not_eq_true',
    decide_eq_false_iff_not] at h
  exact ⟨h.1.1.1, h.1.1.2, h.1.2, h.2⟩

/-- A single plain token parses as the url with the default timeout 10. -/
theorem parseArgs_single (url : String) (hu : plainArg url = true) :
    parseArgs [url] = .ok ⟨url, 10⟩ := by
  obtain ⟨h1, h2, h3, h4⟩ := plainArg_parts url hu
  simp [parseArgs, parseArgsAux, h1, h2, h3, h4]

/-- A plain url token followed by `--timeout` and a value that converts
to an integer parses as those options. -/
theorem parseArgs_with_timeout (url v : String) (t : Int)
    (hu : plainArg url = true) (hv : pyInt v = some t)
    (hvo : looksLikeOption v = false) :
    parseArgs [url, "--timeout", v] = .ok ⟨url, t⟩ := by
  obtain ⟨h1, h2, h3, h4⟩ := plainArg_parts url hu
  simp [parseArgs, parseArgsAux, h1, h2, h3, h4, hvo, hv]

/-- When argv parses, the events of the invocation hold exactly one GET
call, made with the parsed url and timeout. -/
theorem httpGetsOf_run (argv : List String) (u : String) (t : Int)
    (hp : parseArgs argv = .ok ⟨u, t⟩) (get : GetBehavior) (s e : ℚ) :
    httpGetsOf (eventsOf (runCommand argv get s e)) = [(u, t)] := by
  rcases hh : handle u t get s e with ⟨es, o⟩
  have hes : httpGetsOf es = [(u, t)] := by
    have h := httpGetsOf_handle u t get s e
    rw [hh] at h
    exact h
  cases o <;> simp [runCommand, hp, hh, eventsOf, hes]

/-! The claims. -/

/-- C1: for every invocation in which the GET returns a response, the
outcome is Available exactly when the status code equals 200; every other
status code uniformly yields UnavailableStatus with the actual code
captured. -/
theorem c1_exact_200_classification (url : String) (code : Int) (s e : ℚ) :
    ∃ r : CheckResult, check url (.response code) s e = some r ∧
      (r.outcome = .available ↔ code = 200) ∧
      (r.outcome = .unavailableStatus ↔ code ≠ 200) ∧
      r.statusCode = some code := by
  by_cases h : code = 200 <;>
    exact ⟨_, rfl, by simp [check, h], by simp [check, h], by simp [check]⟩

/-- Witness for C1 at status code 503. -/
theorem c1_witness : ∃ r : CheckResult,
    check "https://example.com" (.response 503) 1 1 = some r ∧
      (r.outcome = .available ↔ (503 : Int) = 200) ∧
      (r.outcome = .unavailableStatus ↔ (503 : Int) ≠ 200) ∧
      r.statusCode = some 503 :=
  c1_exact_200_classification "https://example.com" 503 1 1

/-- C2: every invocation that reaches a classified outcome writes exactly
one line to standard output, whose content is exactly the template of the
spec for that outcome followed by a newline. -/
theorem c2_single_stdout_line (url : String) (timeout : Int)
    (get : GetBehavior) (s e : ℚ) (h : handledGet get = true) :
    ∃ r : CheckResult, check url get s e = some r ∧
      stdoutOf (handle url timeout get s e).1 = [specMessage r ++ "\n"] := by
  cases get with
  | response code =>
      refine ⟨_, rfl, ?_⟩
      by_cases h200 : code = 200 <;>
        simp [handle, stdoutOf, specMessage, h200, availableMsg, unavailableMsg]
  | raises exc =>
      simp only [handledGet] at h
      refine ⟨⟨url, .failed, none, none, some exc.msg⟩, by simp [check, h], ?_⟩
      simp [handle, stdoutOf, specMessage, failedMsg, h]

/-- Witness for C2 on the exception branch, with the error text of the
test suite of the repository. -/
theorem c2_witness : ∃ r : CheckResult,
    check "https://example.com" (.raises ⟨true, "Connection error"⟩) 1 1 =
      some r ∧
      stdoutOf (handle "https://example.com" 10
        (.raises ⟨true, "Connection error"⟩) 1 1).1 = [specMessage r ++ "\n"] :=
  c2_single_stdout_line "https://example.com" 10
    (.raises ⟨true, "Connection error"⟩) 1 1 rfl

/-- C9: a produced check result has a status code exactly when the outcome
is Available or UnavailableStatus, an error message exactly when the
outcome is Failed, and the outcome is always exactly one of the three;
every handled run produces a result. -/
theorem c9_result_invariant (url : String) (get : GetBehavior) (s e : ℚ) :
    (handledGet get = true → ∃ r : CheckResult, check url get s e = some r) ∧
    (∀ r : CheckResult, check url get s e = some r →
      (r.statusCode.isSome = true ↔
        (r.outcome = .available ∨ r.outcome = .unavailableStatus)) ∧
      (r.errorMessage.isSome = true ↔ r.outcome = .failed) ∧
      (r.outcome = .available ∨ r.outcome = .unavailableStatus ∨
        r.outcome = .failed)) := by
  constructor
  · intro h
    cases get with
    | response code => exact ⟨_, rfl⟩
    | raises exc =>
        simp only [handledGet] at h
        exact ⟨⟨url, .failed, none, none, some exc.msg⟩, by simp [check, h]⟩
  · intro r hr
    cases get with
    | response code =>
        simp only [check, Option.some_inj] at hr
        subst hr
        by_cases h200 : code = 200 <;> simp [h200]
    | raises exc =>
        by_cases hexc : exc.isReqExc
        · simp only [check, hexc, if_true, Option.some_inj] at hr
          subst hr
          simp
        · simp [check, hexc] at hr

/-- Witness for C9 on a status-200 run. -/
theorem c9_witness :
    ((CheckResult.mk "u" .available (some 200) (some ((1 - 1) * 1000))
        none).statusCode.isSome = true ↔
      ((CheckResult.mk "u" .available (some 200) (some ((1 - 1) * 1000))
          none).outcome = .available ∨
        (CheckResult.mk "u" .available (some 200) (some ((1 - 1) * 1000))
          none).outcome = .unavailableStatus)) ∧
    ((CheckResult.mk "u" .available (some 200) (some ((1 - 1) * 1000))
        none).errorMessage.isSome = true ↔
      (CheckResult.mk "u" .available (some 200) (some ((1 - 1) * 1000))
        none).outcome = .failed) ∧
    ((CheckResult.mk "u" .available (some 200) (some ((1 - 1) * 1000))
        none).outcome = .available ∨
      (CheckResult.mk "u" .available (some 200) (some ((1 - 1) * 1000))
        none).outcome = .unavailableStatus ∨
      (CheckResult.mk "u" .available (some 200) (some ((1 - 1) * 1000))
        none).outcome = .failed) :=
  (c9_result_invariant "u" (.response 200) 1 1).2
    (CheckResult.mk "u" .available (some 200) (some ((1 - 1) * 1000)) none) rfl

/-- C3: a transport-level error (an exception matched by the single
`except requests.RequestException` clause) is caught at the call site and
converted to the Failed outcome with the descriptive text of the error; no
exception propagates out of `handle`, and the process exits with status 0
on all three classified outcomes. -/
theorem c3_transport_errors_caught (url : String) (timeout : Int)
    (exc : PyExc) (s e : ℚ) (hexc : exc.isReqExc = true)
    (hu : plainArg url = true) :
    (handle url timeout (.raises exc) s e).2 = none ∧
    check url (.raises exc) s e =
      some ⟨url, .failed, none, none, some exc.msg⟩ ∧
    (∀ get : GetBehavior, handledGet get = true →
      exitCode (runCommand [url] get s e) = 0) := by
  refine ⟨by simp [handle, hexc], by simp [check, hexc], ?_⟩
  intro get hget
  have hp := parseArgs_single url hu
  rcases hh : handle url 10 get s e with ⟨es, o⟩
  have ho : o = none := by
    have h := handle_snd_eq_none url 10 get s e hget
    rw [hh] at h
    exact h
  subst ho
  simp [runCommand, hp, hh, exitCode]

/-- Witness for C3 on a connection error, exercising the exit status on
the Failed outcome. -/
theorem c3_witness :
    exitCode (runCommand ["https://example.com"]
      (.raises ⟨true, "Connection error"⟩) 1 1) = 0 :=
  (c3_transport_errors_caught "https://example.com" 10
      ⟨true, "Connection error"⟩ 1 1 rfl (by decide)).2.2
    (.raises ⟨true, "Connection error"⟩) rfl

/-- C4 counterexample: on a transport failure the claimed response-time
computation does not happen. Two failing runs whose failure points differ
(wall clock 2 versus 500) produce identical traces; the trace holds a
single clock read (the start timestamp: the code never reads the clock
again on the exception path), and the produced result carries no response
time. -/
theorem c4_counterexample :
    (handle "https://example.com" 10 (.raises ⟨true, "Connection error"⟩)
        1 2).1 =
      (handle "https://example.com" 10 (.raises ⟨true, "Connection error"⟩)
        1 500).1 ∧
    clockReadsOf (handle "https://example.com" 10
      (.raises ⟨true, "Connection error"⟩) 1 2).1 = [1] ∧
    (check "https://example.com" (.raises ⟨true, "Connection error"⟩)
        1 2).map CheckResult.responseTimeMs = some none := by
  exact ⟨by decide, by decide, by decide⟩

/-- C4 amended: on a transport-level failure no response time is computed:
the clock is read exactly once (at the start), the produced result carries
no response time, and the failure message reports only the url and the
error text. -/
theorem c4_no_time_on_failure (url : String) (timeout : Int) (exc : PyExc)
    (s e : ℚ) (h : exc.isReqExc = true) :
    clockReadsOf (handle url timeout (.raises exc) s e).1 = [s] ∧
    check url (.raises exc) s e =
      some ⟨url, .failed, none, none, some exc.msg⟩ ∧
    stdoutOf (handle url timeout (.raises exc) s e).1 =
      [failedMsg url exc.msg ++ "\n"] := by
  refine ⟨?_, by simp [check, h], ?_⟩ <;>
    simp [handle, clockReadsOf, stdoutOf, h]

/-- Witness for the amended C4. -/
theorem c4_witness :
    clockReadsOf (handle "https://example.com" 10
      (.raises ⟨true, "boom"⟩) 1 2).1 = [1] ∧
    check "https://example.com" (.raises ⟨true, "boom"⟩) 1 2 =
      some ⟨"https://example.com", .failed, none, none, some "boom"⟩ ∧
    stdoutOf (handle "https://example.com" 10
      (.raises ⟨true, "boom"⟩) 1 2).1 =
      [failedMsg "https://example.com" "boom" ++ "\n"] :=
  c4_no_time_on_failure "https://example.com" 10 ⟨true, "boom"⟩ 1 2 rfl

/-- C5 counterexample: an Available run emits two debug log records, not
one: the pre-request record and a second one emitted on the status-200
branch before the stdout write. -/
theorem c5_counterexample :
    debugLogsOf (handle "https://example.com" 10 (.response 200) 1 1).1 =
      ["start to send a get request to the url=[https://example.com]",
       "Service at https://example.com is available"] := by
  decide

/-- C5 amended: every run emits the pre-request debug record; the
Available path adds one more debug record after classification; the
UnavailableStatus path adds no log record; the Failed path adds exactly
one error record with the url and the failure text; no error records
appear on the response paths. -/
theorem c5_log_records (url : String) (timeout : Int) (s e : ℚ) :
    (∀ code : Int,
      debugLogsOf (handle url timeout (.response code) s e).1 =
        (if code = 200 then [preRequestLog url, availableLog url]
         else [preRequestLog url]) ∧
      errorLogsOf (handle url timeout (.response code) s e).1 = []) ∧
    (∀ exc : PyExc, exc.isReqExc = true →
      debugLogsOf (handle url timeout (.raises exc) s e).1 =
        [preRequestLog url] ∧
      errorLogsOf (handle url timeout (.raises exc) s e).1 =
        [failedMsg url exc.msg]) := by
  constructor
  · intro code
    by_cases h200 : code = 200 <;>
      simp [handle, debugLogsOf, errorLogsOf, h200]
  · intro exc hexc
    constructor <;> simp [handle, debugLogsOf, errorLogsOf, hexc]

/-- Witness for the amended C5 on the failure branch. -/
theorem c5_witness :
    debugLogsOf (handle "https://example.com" 10
      (.raises ⟨true, "boom"⟩) 1 1).1 = [preRequestLog "https://example.com"] ∧
    errorLogsOf (handle "https://example.com" 10
      (.raises ⟨true, "boom"⟩) 1 1).1 =
      [failedMsg "https://example.com" "boom"] :=
  (c5_log_records "https://example.com" 10 1 1).2 ⟨true, "boom"⟩ rfl

/-- C6: the response time of a response run equals the elapsed time,
end minus start, times one thousand; its rendering always carries exactly
two decimal digits after the point; elapsed half a second renders as
500.00 ms and elapsed zero as 0.00 ms (the scenarios of the test suite,
with the mocked clock returning 1 then 1.5, or 1 twice). -/
theorem c6_response_time (url : String) (code : Int) (s e : ℚ) :
    (check url (.response code) s e).map CheckResult.responseTimeMs =
      some (some ((e - s) * 1000)) ∧
    (∀ q : ℚ, ∃ (a : String) (d₁ d₂ : Char),
      formatFixed2 q = a ++ "." ++ String.mk [d₁, d₂] ∧
        d₁.isDigit = true ∧ d₂.isDigit = true) ∧
    stdoutOf (handle "https://example.com" 10 (.response 200) 1 (3/2)).1 =
      ["Service at https://example.com is available! Response time: 500.00 ms\n"] ∧
    stdoutOf (handle "https://example.com" 10 (.response 200) 1 1).1 =
      ["Service at https://example.com is available! Response time: 0.00 ms\n"] := by
  have hdigit : ∀ n : ℕ, n < 10 → (digitChar n).isDigit = true := by decide
  refine ⟨by simp [check], ?_, ?_, ?_⟩
  · intro q
    refine ⟨_, _, _, rfl, ?_, ?_⟩ <;>
      exact hdigit _ (Nat.mod_lt _ (by norm_num))
  · have h : ((3 : ℚ)/2 - 1) * 1000 = 500 := by norm_num
    simp only [handle, h]
    decide
  · have h : ((1 : ℚ) - 1) * 1000 = 0 := by norm_num
    simp only [handle, h]
    decide

/-- Witness for C6, instantiating the two-decimal-digit rendering at the
value 500. -/
theorem c6_witness :
    (check "https://example.com" (.response 200) 1 (3/2)).map
      CheckResult.responseTimeMs = some (some (((3 : ℚ)/2 - 1) * 1000)) ∧
    ∃ (a : String) (d₁ d₂ : Char),
      formatFixed2 500 = a ++ "." ++ String.mk [d₁, d₂] ∧
        d₁.isDigit = true ∧ d₂.isDigit = true := by
  have h := c6_response_time "https://example.com" 200 1 (3/2)
  exact ⟨h.1, h.2.1 500⟩

/-- C7: the timeout defaults to 10 when the flag is absent, and a supplied
integer value is passed through unchanged to the GET call. -/
theorem c7_timeout_default_and_passthrough (url v : String) (t : Int)
    (hu : plainArg url = true) (hv : pyInt v = some t)
    (hvo : looksLikeOption v = false) :
    parseArgs [url] = .ok ⟨url, 10⟩ ∧
    parseArgs [url, "--timeout", v] = .ok ⟨url, t⟩ ∧
    (∀ get : GetBehavior, ∀ s e : ℚ,
      httpGetsOf (eventsOf (runCommand [url] get s e)) = [(url, 10)]) ∧
    (∀ get : GetBehavior, ∀ s e : ℚ,
      httpGetsOf (eventsOf (runCommand [url, "--timeout", v] get s e)) =
        [(url, t)]) := by
  have hp1 := parseArgs_single url hu
  have hp2 := parseArgs_with_timeout url v t hu hv hvo
  exact ⟨hp1, hp2, fun get s e => httpGetsOf_run _ _ _ hp1 get s e,
    fun get s e => httpGetsOf_run _ _ _ hp2 get s e⟩

/-- Witness for C7: timeout 5 as in the test suite of the repository. -/
theorem c7_witness :
    parseArgs ["https://example.com"] = .ok ⟨"https://example.com", 10⟩ ∧
    parseArgs ["https://example.com", "--timeout", "5"] =
      .ok ⟨"https://example.com", 5⟩ ∧
    httpGetsOf (eventsOf (runCommand ["https://example.com", "--timeout", "5"]
      (.response 200) 1 1)) = [("https://example.com", 5)] := by
  have h := c7_timeout_default_and_passthrough "https://example.com" "5" 5
    (by decide) (by decide) (by decide)
  exact ⟨h.1, h.2.1, h.2.2.2 (.response 200) 1 1⟩

/-- C8: whenever the parser reports an error (in particular with the url
argument absent, where the message names the missing url argument), the
invocation ends as that usage error with exit status 1 and no event — in
particular no GET call — occurs; argv lists without a positional token,
such as the empty one, produce exactly the missing-url message. -/
theorem c8_missing_url_usage_error (argv : List String) (get : GetBehavior)
    (s e : ℚ) :
    (∀ m : String, parseArgs argv = .error m →
      runCommand argv get s e = .usageError m ∧
      exitCode (runCommand argv get s e) = 1 ∧
      eventsOf (runCommand argv get s e) = []) ∧
    parseArgs [] = .error "Error: the following arguments are required: url" ∧
    parseArgs ["--timeout", "5"] =
      .error "Error: the following arguments are required: url" := by
  refine ⟨?_, by decide, by decide⟩
  intro m hm
  simp [runCommand, hm, exitCode, eventsOf]

/-- Witness for C8: the empty invocation. -/
theorem c8_witness :
    runCommand [] (.response 200) 1 1 =
      .usageError "Error: the following arguments are required: url" ∧
    exitCode (runCommand [] (.response 200) 1 1) = 1 ∧
    eventsOf (runCommand [] (.response 200) 1 1) = [] :=
  (c8_missing_url_usage_error [] (.response 200) 1 1).1
    "Error: the following arguments are required: url" (by decide)

/-- C10 counterexample: the url string starting with a dash that is not a
negative number is taken for an option flag, so parsing fails instead of
succeeding and no GET is issued with that value. -/
theorem c10_counterexample :
    parseArgs ["-x"] =
      .error "Error: the following arguments are required: url" ∧
    runCommand ["-x"] (.response 200) 1 1 =
      .usageError "Error: the following arguments are required: url" ∧
    httpGetsOf (eventsOf (runCommand ["-x"] (.response 200) 1 1)) = [] := by
  exact ⟨by decide, by decide, by decide⟩

/-- C10 amended: no validation beyond argument presence and integer
conversion: every url token the parser does not take for an option flag,
including the empty string, and every integer timeout, including zero and
negative values, parse successfully and are passed exactly as given to the
GET call; but a url token beginning with a dash that is not a bare dash or
a negative number is taken for an option flag and yields a usage error. -/
theorem c10_no_validation (url v : String) (t : Int)
    (hu : plainArg url = true) (hv : pyInt v = some t)
    (hvo : looksLikeOption v = false) :
    parseArgs [url, "--timeout", v] = .ok ⟨url, t⟩ ∧
    (∀ get : GetBehavior, ∀ s e : ℚ,
      httpGetsOf (eventsOf (runCommand [url, "--timeout", v] get s e)) =
        [(url, t)]) ∧
    parseArgs ["", "--timeout", "-5"] = .ok ⟨"", -5⟩ ∧
    parseArgs ["", "--timeout", "0"] = .ok ⟨"", 0⟩ := by
  have hp := parseArgs_with_timeout url v t hu hv hvo
  exact ⟨hp, fun get s e => httpGetsOf_run _ _ _ hp get s e,
    by decide, by decide⟩

/-- Witness for the amended C10: empty url, negative timeout. -/
theorem c10_witness :
    parseArgs ["", "--timeout", "-5"] = .ok ⟨"", -5⟩ ∧
    httpGetsOf (eventsOf (runCommand ["", "--timeout", "-5"]
      (.response 200) 1 1)) = [("", -5)] := by
  have h := c10_no_validation "" "-5" (-5) (by decide) (by decide) (by decide)
  exact ⟨h.1, h.2.1 (.response 200) 1 1⟩

end ServiceChecker
